import Mathlib

set_option maxRecDepth 8000

namespace StartupEval

/-- A guardrail binding as built by the `input_guardrail` / `output_guardrail`
decorators in `agnets_main.py`: the decorated function name, the name of the
private backing agent it runs via `Runner.run`, and the boolean field of that
agent’s structured output that it projects to the tripwire flag. -/
structure Guardrail where
  name : String
  agentName : String
  boolField : String
deriving DecidableEq

/-- A tool binding as built by `Agent.as_tool(tool_name, tool_description)`:
the externally visible tool name and the name of the callee agent. -/
structure ToolBinding where
  toolName : String
  agentName : String
deriving DecidableEq

/-- The static data of one `Agent(...)` construction in `agnets_main.py`:
name, instruction text, the `model=` argument when present (`none` means the
SDK default is used), tool bindings, handoff targets (by agent name), and the
attached input and output guardrails. Agents are immutable after
construction. -/
structure AgentSpec where
  name : String
  instructions : String
  model : Option String
  tools : List ToolBinding
  handoffs : List String
  inputGuardrails : List Guardrail
  outputGuardrails : List Guardrail
deriving DecidableEq

/-- Guardrail `pii_and_poli_guardrail`: runs `in_guardrail_agent` and projects
the `political_and_pii` field. -/
def pii_and_poli_guardrail : Guardrail :=
  ⟨"pii_and_poli_guardrail", "input_pii_poli_agent", "political_and_pii"⟩

/-- Guardrail `bias_in_product_eval`: runs `bias_in_product_eval_agent` and
projects the `product_eval_bias` field. -/
def bias_in_product_eval : Guardrail :=
  ⟨"bias_in_product_eval", "bias_in_product_eval_agent", "product_eval_bias"⟩

/-- Guardrail `bias_in_team_eval`: runs `bias_in_team_eval_agent` and projects
the `team_eval_bias` field. -/
def bias_in_team_eval : Guardrail :=
  ⟨"bias_in_team_eval", "bias_in_team_eval_agent", "team_eval_bias"⟩

/-- Guardrail `sens_content_guardrail`: runs `out_pii_or_poli_guardrail_agent`
(named `sensitive_content_agent`) and projects the `sens_cont` field. -/
def sens_content_guardrail : Guardrail :=
  ⟨"sens_content_guardrail", "sensitive_content_agent", "sens_cont"⟩

/-- Guardrail `hallucination_output_guardrail`: runs
`hallucination_guardrail_agent` (named `hallucination_finder_agent`) and
projects the `hallucination` field. -/
def hallucination_output_guardrail : Guardrail :=
  ⟨"hallucination_output_guardrail", "hallucination_finder_agent", "hallucination"⟩

/-- Guardrail `extreme_language_guardrail`: runs
`over_extreme_langauge_guardrail_agent` (named `extreme_language_agent`) and
projects the `extreme_wording` field. -/
def extreme_language_guardrail : Guardrail :=
  ⟨"extreme_language_guardrail", "extreme_language_agent", "extreme_wording"⟩

/-- Guardrail `bias_detection_guardrail`: runs `bias_guardrail_agent` (named
`bias_agent`) and projects the `bias` field. -/
def bias_detection_guardrail : Guardrail :=
  ⟨"bias_detection_guardrail", "bias_agent", "bias"⟩

/-- The agent backing the input PII/political guardrail. -/
def in_guardrail_agent : AgentSpec :=
  ⟨"input_pii_poli_agent",
   "When you receive a message, analyze it for any personally identifiable information (PII) or analyze it for any political content, which should be avoided. Either one needs to be true for the guardrail to be triggered.",
   some "gpt-4o-mini", [], [], [], []⟩

/-- The agent backing the product-evaluation bias guardrail. -/
def bias_in_product_eval_agent : AgentSpec :=
  ⟨"bias_in_product_eval_agent",
   "You are an expert agent responsible for detecting potential bias in the evaluation of a product, service, or business idea. " ++
   "Carefully examine the input for signs of biased assumptions, unfair comparisons, culturally insensitive language, or exclusionary framing. " ++
   "You should also flag any statements that show favoritism, lack objectivity, or reinforce stereotypes." ++
   "Your goal is to provide a reasoned analysis identifying whether bias is present, and if so, explain what kind of bias is detected " ++
   "and how it may affect the credibility or inclusivity of the evaluation. Be specific, concise, and constructive in your feedback.",
   some "gpt-4o-mini", [], [], [], []⟩

/-- The agent backing the team-evaluation bias guardrail. -/
def bias_in_team_eval_agent : AgentSpec :=
  ⟨"bias_in_team_eval_agent",
   "You are responsible for identifying potential bias in the evaluation of a startup team. " ++
   "Review the input for biased language, assumptions, or judgments related to gender, ethnicity, age, education background, geographic origin, or professional experience. " ++
   "Pay attention to whether the evaluation unfairly favors or criticizes individuals or groups based on identity factors or stereotypes." ++
   "Your goal is to determine whether bias is present in how the team is being described or assessed. " ++
   "If bias is detected, explain what type of bias it is, how it may influence the evaluation, and provide a constructive suggestion to improve objectivity and fairness.",
   some "gpt-4o-mini", [], [], [], []⟩

/-- The agent backing the output sensitive-content guardrail. -/
def out_pii_or_poli_guardrail_agent : AgentSpec :=
  ⟨"sensitive_content_agent",
   "When you receive a message, analyze it for any sensitive content. This " ++
   "Includes but is not limited to: PII, political content, hate speech, or any " ++
   "other content that should not be shared/can cause offense to a group of people.",
   some "gpt-4o-mini", [], [], [], []⟩

/-- The agent backing the hallucination guardrail. -/
def hallucination_guardrail_agent : AgentSpec :=
  ⟨"hallucination_finder_agent",
   "Check if the output includes hallucinations—claims or facts that are not grounded in the input, known context, or verified sources. Set hallucination = True only when clear inaccuracies or invented content are detected.",
   some "gpt-4o-mini", [], [], [], []⟩

/-- The agent backing the extreme-language guardrail. -/
def over_extreme_langauge_guardrail_agent : AgentSpec :=
  ⟨"extreme_language_agent",
   "Assess the output for overly extreme or emotionally charged language (e.g., hyperbole, sensationalism, inflammatory tone). Mark extreme_wording = True if the wording is disproportionate to the subject matter or could mislead, provoke, or escalate.",
   some "gpt-4o-mini", [], [], [], []⟩

/-- The agent backing the whole-output bias guardrail. -/
def bias_guardrail_agent : AgentSpec :=
  ⟨"bias_agent",
   "Check the output for any form of bias—ideological, cultural, or demographic. If bias is detected, set bias = True and include representative examples in examples that highlight where and how the bias appears. Prioritize objectivity and fairness.",
   some "gpt-4o-mini", [], [], [], []⟩

/-- Leaf evaluator `product_eval_agent`; carries the product-bias output
guardrail. -/
def product_eval_agent : AgentSpec :=
  ⟨"product_eval_agent",
   "Evaluate the startup’s product quality, tech defensibility, and fit to user needs. Score 0–5.",
   none, [], [], [], [bias_in_product_eval]⟩

/-- Leaf evaluator `market_eval_agent`; carries no guardrails. -/
def market_eval_agent : AgentSpec :=
  ⟨"market_eval_agent",
   "Evaluate the market size, growth, timing, and competitive landscape. Score 0–5.",
   none, [], [], [], []⟩

/-- Leaf evaluator `team_eval_agent`; carries the team-bias output
guardrail. -/
def team_eval_agent : AgentSpec :=
  ⟨"team_eval_agent",
   "Evaluate the startup’s founding and leadership team on experience, execution, and completeness. Score 0–5.",
   none, [], [], [], [bias_in_team_eval]⟩

/-- Top-level evaluator `startup_eval_agent`: exposes the three leaf
evaluators as tools via `as_tool`. -/
def startup_eval_agent : AgentSpec :=
  ⟨"startup_eval_agent",
   "Evaluate the startup’s founding and leadership team on experience, execution, and completeness. Score 0–5.",
   none,
   [⟨"product_evaluation_tool", "product_eval_agent"⟩,
    ⟨"market_evaluation_tool", "market_eval_agent"⟩,
    ⟨"team_evaluation_tool", "team_eval_agent"⟩],
   [], [], []⟩

/-- Handoff sub-agent `differentiation_analyzer_agent`. -/
def differentiation_analyzer_agent : AgentSpec :=
  ⟨"differentiation_analyzer_agent",
   "Analyze the startup description to identify what differentiates it from existing competitors. " ++
   "Focus on unique features, technology, user experience, market positioning, or business model innovation. " ++
   "Clearly articulate the startup’s competitive edge and highlight any elements that are replicable vs. defensible. " ++
   "If no clear differentiation is present, note that explicitly.",
   none, [], [], [], []⟩

/-- Handoff sub-agent `vision_agent`. -/
def vision_agent : AgentSpec :=
  ⟨"vision_agent",
   "Examine the startup’s long-term vision and ambition. Assess how clearly the founder(s) communicate their goals, future market position, " ++
   "and broader impact. Determine whether the vision is compelling, realistic, and aligned with the current product or roadmap. " ++
   "Flag overly vague, generic, or inflated language, and comment on how the vision supports potential investor or user confidence.",
   none, [], [], [], []⟩

/-- Handoff sub-agent `scalability_agent`. -/
def scalability_agent : AgentSpec :=
  ⟨"scalability_agent",
   "Evaluate the startup’s potential for scale. Analyze whether its core product, business model, and operations can grow efficiently as demand increases. " ++
   "Consider factors like automation, infrastructure, network effects, marginal costs, team scalability, and platform readiness. " ++
   "Flag any structural barriers to scaling or signs that the current setup is not prepared for large-scale growth.",
   none, [], [], [], []⟩

/-- Coordinator `startup_improvement_agent`: hands off to the three analysis
sub-agents. -/
def startup_improvement_agent : AgentSpec :=
  ⟨"startup_improvement_agent",
   "You are responsible for analyzing and improving a startup based on its differentiation, vision, and scalability. " ++
   "Use your specialized agents only if the input contains relevant details in that area. " ++
   "Handoff to:" ++
   "- `differentiation_analyzer_agent` if there are details about competition, features, or market positioning." ++
   "- `vision_agent` if the input mentions mission, ambition, or long-term goals." ++
   "- `scalability_agent` if the input discusses growth, infrastructure, or market expansion plans." ++
   "Return a combined response highlighting strengths, weaknesses, and opportunities for improvement.",
   none, [],
   ["differentiation_analyzer_agent", "vision_agent", "scalability_agent"],
   [], []⟩

/-- Independent single-shot `risk_finder_agent`. -/
def risk_finder_agent : AgentSpec :=
  ⟨"risk_finder_agent",
   "Scan the content for known startup risk factors. Flag any that are present, with a 1-line explanation. Examples could include: being a solo founder, No revenue model, High competition industry, Regulatory exposure, and High burn/low growth of cash.",
   none, [], [], [], []⟩

/-- Entry-point `orchestrator_agent`: one handoff target, one input guardrail
and the four output guardrails. -/
def orchestrator_agent : AgentSpec :=
  ⟨"orchestrator_agent",
   "You are responsible for coordinating the overall evaluation of a startup submission. " ++
   "You have access to a specialized agent called `startup_improvement_agent` which contains expert agents that handle different dimensions of startup analysis. " ++
   "Your task is to:" ++
   "- Review the user input for meaningful startup-related content." ++
   "- If the input seems to include information about differentiation, vision, or scalability, hand it off to `startup_improvement_agent`." ++
   "- `startup_improvement_agent` will internally decide which of its sub-agents to activate based on content relevance." ++
   "- If the input is vague, generic, or lacks business substance, you may return a brief summary or request clarification instead." ++
   "Return a clear, well-organized response summarizing the startup’s strengths, weaknesses, and areas for improvement, combining insights from any active agents.",
   none, [],
   ["startup_improvement_agent"],
   [pii_and_poli_guardrail],
   [sens_content_guardrail, hallucination_output_guardrail, extreme_language_guardrail, bias_detection_guardrail]⟩

/-- The process-wide read-only registry: every `Agent(...)` constructed at
module load of `agnets_main.py`. -/
def registry : List AgentSpec :=
  [in_guardrail_agent, bias_in_product_eval_agent, bias_in_team_eval_agent,
   out_pii_or_poli_guardrail_agent, hallucination_guardrail_agent,
   over_extreme_langauge_guardrail_agent, bias_guardrail_agent,
   product_eval_agent, market_eval_agent, team_eval_agent, startup_eval_agent,
   differentiation_analyzer_agent, vision_agent, scalability_agent,
   startup_improvement_agent, risk_finder_agent, orchestrator_agent]

/-- Name-based lookup in the registry (agent names are unique). -/
def lookupAgent (nm : String) : Option AgentSpec :=
  registry.find? (fun a => a.name == nm)

/-- The opaque model-side behaviour of one request: what each backing
guardrail agent answers (its single boolean field, or an inference failure),
what final text each agent produces (or an inference failure), and whether an
agent’s reasoning chooses one of its registered handoffs (by position).
Everything the language model decides is a parameter; the control flow of the
SDK around it is deterministic. -/
structure Oracle where
  guardrailBool : String → String → Except Unit Bool
  agentText : String → String → Except Unit String
  agentHandoff : String → String → Option Nat

/-- Outcomes a `Runner.run` call can raise instead of returning a final
output: an input or output guardrail tripwire (carrying the guardrail name
and its boolean result), an inference/schema failure from the provider, or
exhaustion of the handoff-depth fuel (never reached on this static DAG). -/
inductive RunError where
  | inputTripped (gname : String) (details : Bool)
  | outputTripped (gname : String) (details : Bool)
  | inference
  | outOfFuel
deriving DecidableEq, Repr

/-- Run a guardrail chain over `text`: each guardrail runs its backing agent
through the gateway and projects the boolean flag; the first triggered
guardrail short-circuits the rest; a backing inference failure propagates as
an error distinct from a clean pass. -/
def findTrip (o : Oracle) (gs : List Guardrail) (text : String) :
    Except Unit (Option Guardrail) :=
  match gs with
  | [] => .ok none
  | g :: rest =>
    match o.guardrailBool g.agentName text with
    | .error e => .error e
    | .ok true => .ok (some g)
    | .ok false => findTrip o rest text

/-- The handoff the agent’s reasoning selects, resolved against its
registered handoff list and the registry; `none` when the agent answers
directly. -/
def handoffTarget (o : Oracle) (a : AgentSpec) (input : String) :
    Option AgentSpec :=
  match o.agentHandoff a.name input with
  | none => none
  | some i =>
    match a.handoffs.get? i with
    | none => none
    | some nm => lookupAgent nm

/-- The agent loop of `Runner.run`: if the current agent hands off, the
target becomes the active agent for the rest of the request; otherwise the
agent produces its final text, which then passes through the output
guardrails of that final agent (and only that agent). -/
def runLoop (o : Oracle) : Nat → AgentSpec → String → Except RunError String
  | 0, _, _ => .error .outOfFuel
  | fuel + 1, a, input =>
    match handoffTarget o a input with
    | some t => runLoop o fuel t input
    | none =>
      match o.agentText a.name input with
      | .error _ => .error .inference
      | .ok t =>
        match findTrip o a.outputGuardrails t with
        | .error _ => .error .inference
        | .ok (some g) => .error (.outputTripped g.name true)
        | .ok none => .ok t

/-- Handoff-depth fuel; the static handoff graph has depth at most 3. -/
def runFuel : Nat := 8

/-- `Runner.run(agent, input)`: the input guardrails of the starting agent
run first (a trip raises `InputGuardrailTripwireTriggered`); then the agent
loop produces the final output or raises. -/
def RunnerRun (o : Oracle) (a : AgentSpec) (input : String) :
    Except RunError String :=
  match findTrip o a.inputGuardrails input with
  | .error _ => .error .inference
  | .ok (some g) => .error (.inputTripped g.name true)
  | .ok none => runLoop o runFuel a input

/-- Python’s `s or d` on strings: the empty string is falsy. -/
def pyOr (s d : String) : String :=
  if s = "" then d else s

/-- The fixed message of the `except OutputGuardrailTripwireTriggered`
branch of `evaluate_startup_gradio`. -/
def guardrailTrippedMessage : String :=
  "Guardrail tripped – sensitive content detected. Please revise your input."

/-- The fallback risk text substituted when the risk finder output is
empty. -/
def noRisksMessage : String := "No major risks flagged."

/-- The `try` block of `evaluate_startup_gradio`: run the orchestrator, then
the risk finder, and pair their outputs (with the empty-risk fallback). -/
def evalTryBody (o : Oracle) (user_input : String) :
    Except RunError (String × String) :=
  match RunnerRun o orchestrator_agent user_input with
  | .error e => .error e
  | .ok result =>
    match RunnerRun o risk_finder_agent user_input with
    | .error e => .error e
    | .ok risks => .ok (result, pyOr risks noRisksMessage)

/-- `evaluate_startup_gradio(user_input)`: the try block, with only
`OutputGuardrailTripwireTriggered` recovered into the fixed message and an
empty risk field; every other exception propagates to the caller. -/
def evaluate_startup_gradio (o : Oracle) (user_input : String) :
    Except RunError (String × String) :=
  match evalTryBody o user_input with
  | .error (.outputTripped _ _) => .ok (guardrailTrippedMessage, "")
  | other => other

/-- The agent names an agent can dispatch to statically: its tool callees and
its handoff targets. -/
def agentEdges (a : AgentSpec) : List String :=
  a.tools.map ToolBinding.agentName ++ a.handoffs

/-- One breadth step of the static dispatch graph: add every tool callee and
handoff target of the agents already reached. -/
def reachStep (names : List String) : List String :=
  (names ++ ((names.filterMap lookupAgent).map agentEdges).flatten).dedup

/-- Names reachable from `names` in at most `fuel` dispatch steps. -/
def reachable : Nat → List String → List String
  | 0, names => names
  | fuel + 1, names => reachable fuel (reachStep names)

/-- The two agents `evaluate_startup_gradio` starts runs on. -/
def entryAgents : List String := ["orchestrator_agent", "risk_finder_agent"]

/-- Unfolding of one agent-loop step (the successor-fuel case). -/
theorem runLoop_succ (o : Oracle) (fuel : Nat) (a : AgentSpec) (input : String) :
    runLoop o (fuel + 1) a input =
      match handoffTarget o a input with
      | some t => runLoop o fuel t input
      | none =>
        match o.agentText a.name input with
        | .error _ => .error .inference
        | .ok t =>
          match findTrip o a.outputGuardrails t with
          | .error _ => .error .inference
          | .ok (some g) => .error (.outputTripped g.name true)
          | .ok none => .ok t := rfl

/-- `RunnerRun` with the fuel constant exposed as a successor. -/
theorem RunnerRun_eq (o : Oracle) (a : AgentSpec) (input : String) :
    RunnerRun o a input =
      match findTrip o a.inputGuardrails input with
      | .error _ => .error .inference
      | .ok (some g) => .error (.inputTripped g.name true)
      | .ok none => runLoop o (7 + 1) a input := rfl

/-- A request on which no guardrail triggers, the orchestrator answers
directly, and the risk finder returns empty output. -/
def oracleClean : Oracle :=
  ⟨fun _ _ => .ok false,
   fun a _ => .ok (if a == "risk_finder_agent" then "" else "FEEDBACK:" ++ a),
   fun _ _ => none⟩

/-- A request on which no guardrail triggers and the risk finder returns a
non-empty risk list. -/
def oracleRisky : Oracle :=
  ⟨fun _ _ => .ok false,
   fun a _ => .ok (if a == "risk_finder_agent" then "RISK-LIST" else "FEEDBACK"),
   fun _ _ => none⟩

/-- A request on which only the hallucination output guardrail triggers and
the risk finder would return a non-empty risk list. -/
def oracleOutTrip : Oracle :=
  ⟨fun a _ => .ok (a == "hallucination_finder_agent"),
   fun a _ => .ok (if a == "risk_finder_agent" then "RISK-LIST" else "SYNTH"),
   fun _ _ => none⟩

/-- A request on which only the whole-output bias guardrail triggers. -/
def oracleBiasTrip : Oracle :=
  ⟨fun a _ => .ok (a == "bias_agent"),
   fun a _ => .ok (if a == "risk_finder_agent" then "RISK-LIST" else "SYNTH"),
   fun _ _ => none⟩

/-- A request on which only the sensitive-content output guardrail
triggers. -/
def oracleSensTrip : Oracle :=
  ⟨fun a _ => .ok (a == "sensitive_content_agent"),
   fun a _ => .ok (if a == "risk_finder_agent" then "RISK-LIST" else "SYNTH"),
   fun _ _ => none⟩

/-- A request on which only the extreme-language output guardrail
triggers. -/
def oracleExtremeTrip : Oracle :=
  ⟨fun a _ => .ok (a == "extreme_language_agent"),
   fun a _ => .ok (if a == "risk_finder_agent" then "RISK-LIST" else "SYNTH"),
   fun _ _ => none⟩

/-- A request on which the input PII/political guardrail triggers. -/
def oracleInTrip : Oracle :=
  ⟨fun a _ => .ok (a == "input_pii_poli_agent"),
   fun a _ => .ok ("TEXT:" ++ a),
   fun _ _ => none⟩

/-- A request on which the orchestrator’s own inference call fails. -/
def oracleInferFail : Oracle :=
  ⟨fun _ _ => .ok false,
   fun a _ => if a == "orchestrator_agent" then .error () else .ok "TEXT",
   fun _ _ => none⟩

/-- A request on which the risk finder’s inference call fails. -/
def oracleRiskInferFail : Oracle :=
  ⟨fun _ _ => .ok false,
   fun a _ => if a == "risk_finder_agent" then .error () else .ok "TEXT",
   fun _ _ => none⟩

/-- A request on which the orchestrator hands off to the improvement
coordinator, which hands off to the vision sub-agent. -/
def oracleHandoff : Oracle :=
  ⟨fun _ _ => .ok false,
   fun a _ => .ok (if a == "vision_agent" then "VISION-ANALYSIS"
                   else if a == "orchestrator_agent" then "ORCH-SYNTH"
                   else "OTHER"),
   fun a _ => if a == "orchestrator_agent" then some 0
              else if a == "startup_improvement_agent" then some 1
              else none⟩

/-- A request on which both leaf bias guardrails would trigger on any
evaluated text. -/
def oracleToolBias : Oracle :=
  ⟨fun a _ => .ok (a == "bias_in_product_eval_agent" || a == "bias_in_team_eval_agent"),
   fun a _ => .ok ("EVAL:" ++ a),
   fun _ _ => none⟩

/-- An agent with no registered handoffs never transfers control, whatever
its reasoning proposes. -/
theorem handoffTarget_of_no_handoffs (o : Oracle) (a : AgentSpec) (inp : String)
    (h : a.handoffs = []) : handoffTarget o a inp = none := by
  unfold handoffTarget
  cases o.agentHandoff a.name inp <;> simp [h]

/-- The driver pairs the two pass outputs when both runs succeed. -/
theorem eval_of_both_ok (o : Oracle) (inp f r : String)
    (ho : RunnerRun o orchestrator_agent inp = .ok f)
    (hr : RunnerRun o risk_finder_agent inp = .ok r) :
    evaluate_startup_gradio o inp = .ok (f, pyOr r noRisksMessage) := by
  simp [evaluate_startup_gradio, evalTryBody, ho, hr]

/-- The driver recovers an output-guardrail trip of the orchestrator pass
into the fixed message and an empty risk field. -/
theorem eval_of_output_trip (o : Oracle) (inp g : String) (d : Bool)
    (ho : RunnerRun o orchestrator_agent inp = .error (.outputTripped g d)) :
    evaluate_startup_gradio o inp = .ok (guardrailTrippedMessage, "") := by
  simp [evaluate_startup_gradio, evalTryBody, ho]

/-- The driver does not recover an input-guardrail trip: the error
propagates. -/
theorem eval_of_input_trip (o : Oracle) (inp g : String) (d : Bool)
    (ho : RunnerRun o orchestrator_agent inp = .error (.inputTripped g d)) :
    evaluate_startup_gradio o inp = .error (.inputTripped g d) := by
  simp [evaluate_startup_gradio, evalTryBody, ho]

/-- The driver does not recover an inference failure of the orchestrator
pass: the error propagates. -/
theorem eval_of_orch_inference_fail (o : Oracle) (inp : String)
    (ho : RunnerRun o orchestrator_agent inp = .error .inference) :
    evaluate_startup_gradio o inp = .error .inference := by
  simp [evaluate_startup_gradio, evalTryBody, ho]

/-- The driver does not recover an inference failure of the risk finder
pass: the error propagates and the orchestrator output is discarded. -/
theorem eval_of_risk_inference_fail (o : Oracle) (inp f : String)
    (ho : RunnerRun o orchestrator_agent inp = .ok f)
    (hr : RunnerRun o risk_finder_agent inp = .error .inference) :
    evaluate_startup_gradio o inp = .error .inference := by
  simp [evaluate_startup_gradio, evalTryBody, ho, hr]

/-- A true `political_and_pii` verdict on the raw input makes the
orchestrator run raise the input tripwire before any reasoning. -/
theorem orch_run_of_input_verdict (o : Oracle) (inp : String)
    (h : o.guardrailBool "input_pii_poli_agent" inp = .ok true) :
    RunnerRun o orchestrator_agent inp =
      .error (.inputTripped "pii_and_poli_guardrail" true) := by
  rw [RunnerRun_eq]
  simp [findTrip, orchestrator_agent, pii_and_poli_guardrail, h]

/-- Claim C1, counterexample: on a request where an output guardrail trips,
`evaluate_startup_gradio` returns an empty risk field even though the risk
finder would have produced the non-empty text RISK-LIST — a guardrail trip
does empty the risk field, contrary to the claim. -/
theorem c1_counterexample :
    evaluate_startup_gradio oracleOutTrip "x" = .ok (guardrailTrippedMessage, "") ∧
    oracleOutTrip.agentText "risk_finder_agent" "x" = .ok "RISK-LIST" ∧
    ("" : String) ≠ "RISK-LIST" := by
  refine ⟨rfl, rfl, ?_⟩
  decide

/-- Claim C1 (amended): the risk field carries the risk finder result only
when the orchestrator pass succeeds; when an output guardrail trips the
driver returns the fixed message with an empty risk field (the risk finder
result is dropped), and when the input guardrail trips no outcome pair is
returned at all — the error propagates to the caller. -/
theorem c1_amended_risk_field (o : Oracle) (inp f r g : String) (d : Bool) :
    (RunnerRun o orchestrator_agent inp = .ok f →
     RunnerRun o risk_finder_agent inp = .ok r →
     evaluate_startup_gradio o inp = .ok (f, pyOr r noRisksMessage)) ∧
    (RunnerRun o orchestrator_agent inp = .error (.outputTripped g d) →
     evaluate_startup_gradio o inp = .ok (guardrailTrippedMessage, "")) ∧
    (RunnerRun o orchestrator_agent inp = .error (.inputTripped g d) →
     evaluate_startup_gradio o inp = .error (.inputTripped g d)) := by
  refine ⟨fun ho hr => eval_of_both_ok o inp f r ho hr,
          fun ho => eval_of_output_trip o inp g d ho,
          fun ho => eval_of_input_trip o inp g d ho⟩

/-- Claim C1 witness: the amended theorem applied on the concrete
output-trip request. -/
theorem c1_amended_witness :
    RunnerRun oracleOutTrip orchestrator_agent "x" =
      .error (.outputTripped "hallucination_output_guardrail" true) ∧
    evaluate_startup_gradio oracleOutTrip "x" = .ok (guardrailTrippedMessage, "") :=
  ⟨rfl,
   (c1_amended_risk_field oracleOutTrip "x" "f" "r" "hallucination_output_guardrail" true).2.1 rfl⟩

/-- Claim C2, counterexample: on a request where the input guardrail
triggers, `evaluate_startup_gradio` raises `InputGuardrailTripwireTriggered`
uncaught instead of returning an input-rejection message, and the risk
finder pass never runs. -/
theorem c2_counterexample :
    evaluate_startup_gradio oracleInTrip "Contact john@doe.com about our startup" =
      .error (.inputTripped "pii_and_poli_guardrail" true) := rfl

/-- Claim C2 (amended): for every input on which the PII/political input
guardrail triggers, the orchestrator run raises the input tripwire before
any delegation, and `evaluate_startup_gradio` does not catch it: the call
yields the uncaught error — no feedback message is returned and the risk
finder pass does not run. -/
theorem c2_amended_input_trip_raises (o : Oracle) (inp : String)
    (h : o.guardrailBool "input_pii_poli_agent" inp = .ok true) :
    evaluate_startup_gradio o inp =
      .error (.inputTripped "pii_and_poli_guardrail" true) :=
  eval_of_input_trip o inp "pii_and_poli_guardrail" true
    (orch_run_of_input_verdict o inp h)

/-- Claim C2 witness: the amended theorem applied on the concrete
input-trip request. -/
theorem c2_amended_witness :
    oracleInTrip.guardrailBool "input_pii_poli_agent" "pii text" = .ok true ∧
    evaluate_startup_gradio oracleInTrip "pii text" =
      .error (.inputTripped "pii_and_poli_guardrail" true) :=
  ⟨rfl, c2_amended_input_trip_raises oracleInTrip "pii text" rfl⟩

/-- Claim C3, counterexample: on a request where the orchestrator hands off
(to the coordinator, which hands off to the vision sub-agent), the final
output of the run is the handoff target’s text verbatim; the text the
delegator itself would synthesize (ORCH-SYNTH) never appears — control was
terminally abandoned to the target, contrary to the claim. -/
theorem c3_counterexample :
    RunnerRun oracleHandoff orchestrator_agent "startup with vision" = .ok "VISION-ANALYSIS" ∧
    oracleHandoff.agentText "orchestrator_agent" "startup with vision" = .ok "ORCH-SYNTH" ∧
    ("VISION-ANALYSIS" : String) ≠ "ORCH-SYNTH" := by
  refine ⟨rfl, rfl, ?_⟩
  decide

/-- Claim C3 (amended): delegation via `handoffs` is a one-way transfer of
control: once an agent’s run selects a handoff target, the remainder of the
request is exactly the target’s run — the delegator’s own text and output
guardrails are never consulted again, so the delegator never resumes to
merge results. -/
theorem c3_amended_handoff_transfers (o : Oracle) (fuel : Nat)
    (a t : AgentSpec) (inp : String)
    (h : handoffTarget o a inp = some t) :
    runLoop o (fuel + 1) a inp = runLoop o fuel t inp := by
  rw [runLoop_succ, h]

/-- Claim C3 witness: the amended theorem applied on the concrete handoff
request, where the orchestrator transfers control to the improvement
coordinator. -/
theorem c3_amended_witness :
    handoffTarget oracleHandoff orchestrator_agent "x" = some startup_improvement_agent ∧
    runLoop oracleHandoff (3 + 1) orchestrator_agent "x" =
      runLoop oracleHandoff 3 startup_improvement_agent "x" :=
  ⟨rfl,
   c3_amended_handoff_transfers oracleHandoff 3 orchestrator_agent
     startup_improvement_agent "x" rfl⟩

/-- Claim C4: when the orchestrator synthesizes text itself and any single
one of its four output guardrails reports a true flag on that text — the
other three flags being arbitrary — the run raises the output tripwire and
`evaluate_startup_gradio` returns the output-rejection message. -/
theorem c4_any_output_guardrail_rejects (o : Oracle) (inp t : String)
    (b1 b2 b3 b4 : Bool)
    (hin : o.guardrailBool "input_pii_poli_agent" inp = .ok false)
    (hh : o.agentHandoff "orchestrator_agent" inp = none)
    (ht : o.agentText "orchestrator_agent" inp = .ok t)
    (h1 : o.guardrailBool "sensitive_content_agent" t = .ok b1)
    (h2 : o.guardrailBool "hallucination_finder_agent" t = .ok b2)
    (h3 : o.guardrailBool "extreme_language_agent" t = .ok b3)
    (h4 : o.guardrailBool "bias_agent" t = .ok b4)
    (htrip : b1 || b2 || b3 || b4 = true) :
    evaluate_startup_gradio o inp = .ok (guardrailTrippedMessage, "") := by
  have e : ∃ g d, RunnerRun o orchestrator_agent inp = .error (.outputTripped g d) := by
    rw [RunnerRun_eq]
    cases b1 <;> cases b2 <;> cases b3 <;> cases b4 <;>
      simp_all [runLoop_succ, handoffTarget, findTrip, orchestrator_agent,
        pii_and_poli_guardrail, sens_content_guardrail,
        hallucination_output_guardrail, extreme_language_guardrail,
        bias_detection_guardrail]
  obtain ⟨g, d, e⟩ := e
  exact eval_of_output_trip o inp g d e

/-- Claim C4 witness: applied on the concrete request where only the
sensitive-content guardrail reports true. -/
theorem c4_witness :
    oracleSensTrip.guardrailBool "sensitive_content_agent" "SYNTH" = .ok true ∧
    evaluate_startup_gradio oracleSensTrip "x" = .ok (guardrailTrippedMessage, "") :=
  ⟨rfl,
   c4_any_output_guardrail_rejects oracleSensTrip "x" "SYNTH" true false false false
     rfl rfl rfl rfl rfl rfl rfl rfl⟩

/-- Claim C5, counterexample: four requests on which respectively the
sensitive-content, hallucination, extreme-language and bias guardrail is the
one that trips all yield the very same fixed user-facing message — the
message does not name the triggering category. -/
theorem c5_counterexample :
    evaluate_startup_gradio oracleSensTrip "x" = .ok (guardrailTrippedMessage, "") ∧
    evaluate_startup_gradio oracleOutTrip "x" = .ok (guardrailTrippedMessage, "") ∧
    evaluate_startup_gradio oracleExtremeTrip "x" = .ok (guardrailTrippedMessage, "") ∧
    evaluate_startup_gradio oracleBiasTrip "x" = .ok (guardrailTrippedMessage, "") :=
  ⟨rfl, rfl, rfl, rfl⟩

/-- Claim C5 (amended): when an output guardrail trips, the user-facing
message is the one fixed text `guardrailTrippedMessage` — identical for all
four guardrails and always worded as a sensitive-content notice — whatever
guardrail name and details the tripwire carries; it does not re-surface the
flagged content. -/
theorem c5_amended_fixed_message (o : Oracle) (inp g : String) (d : Bool)
    (h : evalTryBody o inp = .error (.outputTripped g d)) :
    evaluate_startup_gradio o inp = .ok (guardrailTrippedMessage, "") := by
  simp [evaluate_startup_gradio, h]

/-- Claim C5 witness: the amended theorem applied on the concrete
bias-guardrail-trip request. -/
theorem c5_amended_witness :
    evalTryBody oracleBiasTrip "x" =
      .error (.outputTripped "bias_detection_guardrail" true) ∧
    evaluate_startup_gradio oracleBiasTrip "x" = .ok (guardrailTrippedMessage, "") :=
  ⟨rfl, c5_amended_fixed_message oracleBiasTrip "x" "bias_detection_guardrail" true rfl⟩

/-- Claim C6, counterexample: an inference failure in the orchestrator pass,
or in the risk finder pass, escapes `evaluate_startup_gradio` uncaught — no
generic service-error message is returned. -/
theorem c6_counterexample :
    evaluate_startup_gradio oracleInferFail "x" = .error .inference ∧
    evaluate_startup_gradio oracleRiskInferFail "x" = .error .inference :=
  ⟨rfl, rfl⟩

/-- Claim C6 (amended): an inference failure on either pass propagates out
of `evaluate_startup_gradio` uncaught — only the output-guardrail tripwire
is recovered — and partial results on that path are discarded because no
outcome pair is formed. -/
theorem c6_amended_inference_uncaught (o : Oracle) (inp f : String) :
    (RunnerRun o orchestrator_agent inp = .error .inference →
     evaluate_startup_gradio o inp = .error .inference) ∧
    (RunnerRun o orchestrator_agent inp = .ok f →
     RunnerRun o risk_finder_agent inp = .error .inference →
     evaluate_startup_gradio o inp = .error .inference) :=
  ⟨fun ho => eval_of_orch_inference_fail o inp ho,
   fun ho hr => eval_of_risk_inference_fail o inp f ho hr⟩

/-- Claim C6 witness: the amended theorem applied on the concrete
orchestrator-inference-failure request. -/
theorem c6_amended_witness :
    RunnerRun oracleInferFail orchestrator_agent "x" = .error .inference ∧
    evaluate_startup_gradio oracleInferFail "x" = .error .inference :=
  ⟨rfl, (c6_amended_inference_uncaught oracleInferFail "x" "f").1 rfl⟩

/-- Claim C7: the product and team evaluators carry exactly their bias
output guardrail and the market evaluator carries none; a run of the product
or team evaluator whose guardrail reports true fails with the output
tripwire carrying that guardrail’s name and details instead of returning the
text, a false verdict lets the text through, and the market evaluator
returns its text unconditionally. -/
theorem c7_leaf_bias_guardrails (o : Oracle) (inp t : String) :
    product_eval_agent.outputGuardrails = [bias_in_product_eval] ∧
    team_eval_agent.outputGuardrails = [bias_in_team_eval] ∧
    market_eval_agent.outputGuardrails = [] ∧
    (o.agentText "product_eval_agent" inp = .ok t →
     o.guardrailBool "bias_in_product_eval_agent" t = .ok true →
     RunnerRun o product_eval_agent inp =
       .error (.outputTripped "bias_in_product_eval" true)) ∧
    (o.agentText "product_eval_agent" inp = .ok t →
     o.guardrailBool "bias_in_product_eval_agent" t = .ok false →
     RunnerRun o product_eval_agent inp = .ok t) ∧
    (o.agentText "team_eval_agent" inp = .ok t →
     o.guardrailBool "bias_in_team_eval_agent" t = .ok true →
     RunnerRun o team_eval_agent inp =
       .error (.outputTripped "bias_in_team_eval" true)) ∧
    (o.agentText "market_eval_agent" inp = .ok t →
     RunnerRun o market_eval_agent inp = .ok t) := by
  refine ⟨rfl, rfl, rfl, ?_, ?_, ?_, ?_⟩ <;> intro ht <;>
    try intro hg
  all_goals
    rw [RunnerRun_eq, runLoop_succ, handoffTarget_of_no_handoffs o _ inp rfl]
  all_goals
    simp_all [findTrip, product_eval_agent, team_eval_agent, market_eval_agent,
      bias_in_product_eval, bias_in_team_eval]

/-- Claim C7 witness: applied on the concrete request where both leaf bias
guardrails report true — the product run trips its guardrail while the
market run returns its text untouched. -/
theorem c7_witness :
    oracleToolBias.guardrailBool "bias_in_product_eval_agent" "EVAL:product_eval_agent" = .ok true ∧
    RunnerRun oracleToolBias product_eval_agent "x" =
      .error (.outputTripped "bias_in_product_eval" true) ∧
    RunnerRun oracleToolBias market_eval_agent "x" = .ok "EVAL:market_eval_agent" :=
  ⟨rfl,
   (c7_leaf_bias_guardrails oracleToolBias "x" "EVAL:product_eval_agent").2.2.2.1 rfl rfl,
   (c7_leaf_bias_guardrails oracleToolBias "x" "EVAL:market_eval_agent").2.2.2.2.2.2 rfl⟩

/-- Claim C8: when both passes succeed, the risk field is exactly the risk
finder output when that output is non-empty, and the fixed fallback text
when it is empty. -/
theorem c8_risk_fallback (o : Oracle) (inp f r : String)
    (ho : RunnerRun o orchestrator_agent inp = .ok f)
    (hr : RunnerRun o risk_finder_agent inp = .ok r) :
    evaluate_startup_gradio o inp =
      .ok (f, if r = "" then noRisksMessage else r) := by
  have h := eval_of_both_ok o inp f r ho hr
  simpa [pyOr] using h

/-- Claim C8 witness: applied on the concrete clean request whose risk
finder output is empty — the fallback text is substituted. -/
theorem c8_witness :
    RunnerRun oracleClean risk_finder_agent "x" = .ok "" ∧
    evaluate_startup_gradio oracleClean "x" =
      .ok ("FEEDBACK:orchestrator_agent", noRisksMessage) :=
  ⟨rfl, by
    have h := c8_risk_fallback oracleClean "x" "FEEDBACK:orchestrator_agent" "" rfl rfl
    simpa using h⟩

/-- Claim C9: the set of agent names reachable from the two entry agents
through tool and handoff edges is closed after four steps and contains only
the orchestrator, the risk finder, the improvement coordinator and its three
sub-agents; `startup_eval_agent` and the three leaf evaluators are not in
it, no reachable agent registers `startup_eval_agent` as a tool callee or
handoff target, and every reachable agent has an empty tool list — the tool
dispatch path of the leaf evaluators is unreachable from
`evaluate_startup_gradio`. -/
theorem c9_eval_agent_unreachable :
    reachable 5 entryAgents = reachable 4 entryAgents ∧
    reachable 4 entryAgents =
      ["orchestrator_agent", "risk_finder_agent", "startup_improvement_agent",
       "differentiation_analyzer_agent", "vision_agent", "scalability_agent"] ∧
    "startup_eval_agent" ∉ reachable 4 entryAgents ∧
    "product_eval_agent" ∉ reachable 4 entryAgents ∧
    "market_eval_agent" ∉ reachable 4 entryAgents ∧
    "team_eval_agent" ∉ reachable 4 entryAgents ∧
    (∀ a ∈ registry, a.name ∈ reachable 4 entryAgents →
      "startup_eval_agent" ∉ agentEdges a ∧ a.tools = []) := by
  refine ⟨rfl, rfl, ?_, ?_, ?_, ?_, ?_⟩ <;> decide

/-- Claim C10: every guardrail backing agent is constructed with the literal
model identifier gpt-4o-mini, and every agent in the registry either carries
that same literal or no model argument at all — no agent takes its model
identifier from the injected configuration. -/
theorem c10_hardcoded_model :
    in_guardrail_agent.model = some "gpt-4o-mini" ∧
    bias_in_product_eval_agent.model = some "gpt-4o-mini" ∧
    bias_in_team_eval_agent.model = some "gpt-4o-mini" ∧
    out_pii_or_poli_guardrail_agent.model = some "gpt-4o-mini" ∧
    hallucination_guardrail_agent.model = some "gpt-4o-mini" ∧
    over_extreme_langauge_guardrail_agent.model = some "gpt-4o-mini" ∧
    bias_guardrail_agent.model = some "gpt-4o-mini" ∧
    (∀ a ∈ registry, a.model = some "gpt-4o-mini" ∨ a.model = none) := by
  refine ⟨rfl, rfl, rfl, rfl, rfl, rfl, rfl, ?_⟩
  decide

end StartupEval
